import Mathlib

/-!
Verification development for `src/models/resnet_enas.py` (LightNAS).

The file shallowly embeds the construction-time bookkeeping of the ENAS
ResNet module: the four residual block constructors
(`BasicBlockV1Enas`, `BottleneckV1Enas`, `BasicBlockV2Enas`,
`BottleneckV2Enas`), the shared `_make_layer` helper, the two network
assemblers (`ResNetV1Enas`, `ResNetV2Enas`), the `resnet_spec` table and
the `get_resnet_enas` entry point.  Python exceptions raised during
construction are modelled with `Except`.

External pieces are modelled as follows:
* `utils.binary_layers.QConv2D` / `activated_conv` are repository code
  outside `src/`; following the spec they are modelled as quantized
  convolution layers holding one parameter dictionary each, and passing
  a `params` argument reuses that dictionary (weight sharing).
* The framework parameter store (mxnet gluon `ParameterDict`) rejects a
  reuse whose requested weight shape conflicts with the stored shape on
  a known dimension; an unknown (deferred) `in_channels` is encoded as 0
  and matches anything.
* `binary_models.common_layers.add_initial_layers` (the stem) is outside
  `src/` and is kept opaque as a single `Layer.initialLayers` entry.
* The `@enas_unit` decorator (external `autogluon` library) is treated as
  transparent: `_make_layer` instantiates the decorated class with the
  written arguments and the Python defaults (`bits=1`, no partner).
* `set_binary_layer_config` only mutates an ambient configuration of the
  external binary-layer library and allocates nothing; it is omitted.
-/

/-- A Python exception surfaced synchronously at construction time. -/
inductive PyErr where
  | assertionError (msg : String)
  | typeError (msg : String)
  | attributeError (attr : String)
  | valueError (msg : String)
  | indexError (msg : String)
deriving DecidableEq, Repr

/-- A parameter dictionary (mxnet `ParameterDict`) holding one convolution
weight.  `pid` is the allocation identity: two layers alias the same
storage exactly when they hold the same `pid`.  The shape is
`(out_channels, in_channels, kernel_size)`; `in_channels = 0` encodes a
deferred (not yet known) input-channel dimension. -/
structure PDict where
  pid : ℕ
  shape : ℕ × ℕ × ℕ
deriving DecidableEq, Repr

/-- A quantized convolution layer (`QConv2D`, possibly wrapped inside
`activated_conv`); `params` is the parameter dictionary its weight lives
in.  Modelled from the spec: `utils.binary_layers` is repository code not
under `src/`; per the spec, sharing is "same tensor identity for
corresponding sub-layers", so only the dictionary identity and the weight
shape are represented. -/
structure QConvLayer where
  params : PDict
deriving DecidableEq, Repr

/-- A batch normalization layer; only the identity of its (never shared)
parameter allocation is tracked. -/
structure BNLayer where
  pid : ℕ
deriving DecidableEq, Repr

/-- Framework shape check for reusing a stored weight: known dimensions
must agree; an unknown input-channel dimension (0) matches anything. -/
def shape_compatible (requested stored : ℕ × ℕ × ℕ) : Bool :=
  requested.1 == stored.1 && requested.2.2 == stored.2.2 &&
    (requested.2.1 == stored.2.1 || requested.2.1 == 0 || stored.2.1 == 0)

/-- Create a quantized convolution.  With `shared = none` a fresh
parameter dictionary is allocated (identity `fresh`); with
`shared = some d` the layer reuses `d`, and the framework parameter store
raises an `AssertionError` when the requested weight shape conflicts with
the stored one. -/
def mkQConv (requested : ℕ × ℕ × ℕ) (shared : Option PDict) (fresh : ℕ) :
    Except PyErr (QConvLayer × ℕ) :=
  match shared with
  | none => Except.ok (⟨⟨fresh, requested⟩⟩, fresh + 1)
  | some d =>
    if shape_compatible requested d.shape then Except.ok (⟨d⟩, fresh)
    else Except.error (.assertionError "Parameter weight exists with a different shape")

/-- Create a batch normalization layer with a fresh parameter allocation. -/
def mkBN (fresh : ℕ) : BNLayer × ℕ := (⟨fresh⟩, fresh + 1)

/-! ### BasicBlockV1Enas (resnet_enas.py lines 56-131) -/

/-- State of a constructed `BasicBlockV1Enas`.
`body0_qconv`/`body1_bn`/`body2_qconv`/`body3_bn` are `self.body[0..3]`
(the two `activated_conv`s and the two `BatchNorm`s); `downsample` is
`self.downsample` (`None`, or the sequential `[activated_conv, BatchNorm]`). -/
structure BasicBlockV1Enas where
  channels : ℕ
  stride : ℕ
  in_channels : ℕ
  bits : ℕ
  grad_cancel : ℚ
  body0_qconv : QConvLayer
  body1_bn : BNLayer
  body2_qconv : QConvLayer
  body3_bn : BNLayer
  downsample : Option (QConvLayer × BNLayer)
deriving DecidableEq, Repr

/-- `BasicBlockV1Enas.__init__` (lines 74-123, with the default
`init=True` so `_init` runs; the repository never passes `init=False`).
With a partner, `conv1_weights`/`conv2_weights` are the `body[0]`/`body[2]`
qconv parameter dictionaries of the partner, and with `downsample`
additionally the `downsample[0]` dictionary of the partner (a partner
without a downsample path makes `partner.downsample[0]` a `None`
subscript, a `TypeError`).  The convolutions are then created in body order and the
downsample pair last, exactly as `_init` adds them. -/
def BasicBlockV1Enas.init (channels stride : ℕ) (downsample : Bool)
    (in_channels bits : ℕ) (grad_cancel : ℚ)
    (parameter_sharing_partner : Option BasicBlockV1Enas) (fresh : ℕ) :
    Except PyErr (BasicBlockV1Enas × ℕ) :=
  let conv1_weights : Option PDict :=
    parameter_sharing_partner.map (fun p => p.body0_qconv.params)
  let conv2_weights : Option PDict :=
    parameter_sharing_partner.map (fun p => p.body2_qconv.params)
  let dsw : Except PyErr (Option PDict) :=
    if downsample then
      match parameter_sharing_partner with
      | some p =>
        match p.downsample with
        | some l => Except.ok (some l.1.params)
        | none => Except.error (.typeError "NoneType object is not subscriptable")
      | none => Except.ok none
    else Except.ok none
  match dsw with
  | Except.error e => Except.error e
  | Except.ok downsample_conv_weights =>
    match mkQConv (channels, in_channels, 3) conv1_weights fresh with
    | Except.error e => Except.error e
    | Except.ok (body0, f0) =>
      let (bn1, f1) := mkBN f0
      match mkQConv (channels, channels, 3) conv2_weights f1 with
      | Except.error e => Except.error e
      | Except.ok (body2, f2) =>
        let (bn3, f3) := mkBN f2
        if downsample then
          match mkQConv (channels, in_channels, 1) downsample_conv_weights f3 with
          | Except.error e => Except.error e
          | Except.ok (dsq, f4) =>
            let (dsbn, f5) := mkBN f4
            Except.ok (⟨channels, stride, in_channels, bits, grad_cancel,
              body0, bn1, body2, bn3, some (dsq, dsbn)⟩, f5)
        else
          Except.ok (⟨channels, stride, in_channels, bits, grad_cancel,
            body0, bn1, body2, bn3, none⟩, f3)

/-- `BasicBlockV1Enas.latency_function` (lines 102-106).  Python true
division, so the result is exact over ℚ. -/
def BasicBlockV1Enas.latency_function (self : BasicBlockV1Enas)
    (measured_forward_latency : ℚ) : ℚ :=
  if self.bits = 32 then 3 else 3 * (1/4 + 3/4 * ((self.bits : ℚ) / 32))

/-! ### BottleneckV1Enas (lines 133-211) -/

/-- State of a `BottleneckV1Enas` as its attributes would be populated; in
fact `BottleneckV1Enas.__init__` never completes (see `init` below), so
values of this type only arise as hypothetical partners. -/
structure BottleneckV1Enas where
  bits : ℕ
  conv1_weights : Option PDict
  conv2_weights : Option PDict
  conv3_weights : Option PDict
  downsample_conv_weights : Option PDict
deriving DecidableEq, Repr

/-- `BottleneckV1Enas.__init__` (lines 151-194).  After copying the
weight dictionaries of the partner (lines 158-168) it builds
`body[0] = QConv2D(channels // 4, kernel_size=1, strides=stride,
params=conv1_weights)` (line 173, input channels deferred) and
`body[1] = BatchNorm()` (line 174).  Line 176 then calls
`_conv3x3(channels // 4, 1, channels // 4, params=...)`, but `_conv3x3`
(lines 48-52) requires the four positional arguments
`(bits, channels, stride, in_channels)`: the call supplies only three, so
Python raises `TypeError` before the block is ever completed.  Lines
177-194 are unreachable. -/
def BottleneckV1Enas.init (channels stride : ℕ) (downsample : Bool)
    (in_channels bits : ℕ) (grad_cancel : ℚ)
    (parameter_sharing_partner : Option BottleneckV1Enas) (fresh : ℕ) :
    Except PyErr (BottleneckV1Enas × ℕ) :=
  let conv1_weights : Option PDict :=
    match parameter_sharing_partner with
    | some p => p.conv1_weights
    | none => none
  -- lines 165-168 also copy conv2/conv3/downsample dictionaries; those
  -- reads always succeed and are never consulted before the failure.
  match mkQConv (channels / 4, 0, 1) conv1_weights fresh with
  | Except.error e => Except.error e
  | Except.ok (_body0, f0) =>
    let (_bn1, _f1) := mkBN f0
    Except.error (.typeError "conv3x3 missing 1 required positional argument: in_channels")

/-- `BottleneckV1Enas.latency_function` (lines 196-200). -/
def BottleneckV1Enas.latency_function (self : BottleneckV1Enas)
    (measured_forward_latency : ℚ) : ℚ :=
  if self.bits = 32 then 3 else 3 * (1/4 + 3/4 * ((self.bits : ℚ) / 32))

/-! ### BasicBlockV2Enas (lines 213-296) -/

/-- State of a constructed `BasicBlockV2Enas`.  `bn` is the leading
`self.bn`; `body0_qconv`/`body1_bn`/`body2_qconv` are `self.body[0..2]`;
`downsample` is the optional downsample `activated_conv` (V2 has no
batchnorm in the shortcut).  `downsample_conv_weights` mirrors the Python
attribute of that name: the outer `none` means the attribute was never
assigned (reading it raises `AttributeError`), `some o` means it holds
`o` (`none` inside being Python `None`). -/
structure BasicBlockV2Enas where
  channels : ℕ
  stride : ℕ
  bits : ℕ
  in_channels : ℕ
  grad_cancel : ℚ
  bn : BNLayer
  conv1_weights : PDict
  conv2_weights : PDict
  downsample_conv_weights : Option (Option PDict)
  body0_qconv : QConvLayer
  body1_bn : BNLayer
  body2_qconv : QConvLayer
  downsample : Option QConvLayer
deriving DecidableEq, Repr

/-- `BasicBlockV2Enas.__init__` (lines 232-281, default `init=True`).
Order of allocations follows the source: `self.bn` first (line 244), then
the body convolutions and batchnorm, then the downsample convolution.
With `downsample` and a partner, line 257 reads the
`downsample_conv_weights` attribute of the partner, which is unset when the partner was
built without a downsample path.  Without a partner, lines 277-281 store
the freshly created dictionaries back into the `*_weights` attributes. -/
def BasicBlockV2Enas.init (channels stride : ℕ) (downsample : Bool)
    (in_channels bits : ℕ) (grad_cancel : ℚ)
    (parameter_sharing_partner : Option BasicBlockV2Enas) (fresh : ℕ) :
    Except PyErr (BasicBlockV2Enas × ℕ) :=
  let (bn0, f0) := mkBN fresh
  let conv1_w : Option PDict :=
    parameter_sharing_partner.map (fun p => p.conv1_weights)
  let conv2_w : Option PDict :=
    parameter_sharing_partner.map (fun p => p.conv2_weights)
  let dsw : Except PyErr (Option (Option PDict)) :=
    if downsample then
      match parameter_sharing_partner with
      | some p =>
        match p.downsample_conv_weights with
        | some o => Except.ok (some o)
        | none => Except.error (.attributeError "downsample_conv_weights")
      | none => Except.ok (some none)
    else Except.ok none
  match dsw with
  | Except.error e => Except.error e
  | Except.ok ds_attr =>
    match mkQConv (channels, in_channels, 3) conv1_w f0 with
    | Except.error e => Except.error e
    | Except.ok (body0, f1) =>
      let (bnA, f2) := mkBN f1
      match mkQConv (channels, channels, 3) conv2_w f2 with
      | Except.error e => Except.error e
      | Except.ok (body2, f3) =>
        if downsample then
          match ds_attr with
          | none => Except.error (.attributeError "downsample_conv_weights")
          | some o =>
            match mkQConv (channels, in_channels, 1) o f3 with
            | Except.error e => Except.error e
            | Except.ok (dsq, f4) =>
              match parameter_sharing_partner with
              | none =>
                Except.ok (⟨channels, stride, bits, in_channels, grad_cancel, bn0,
                  body0.params, body2.params, some (some dsq.params),
                  body0, bnA, body2, some dsq⟩, f4)
              | some p =>
                Except.ok (⟨channels, stride, bits, in_channels, grad_cancel, bn0,
                  p.conv1_weights, p.conv2_weights, some o,
                  body0, bnA, body2, some dsq⟩, f4)
        else
          match parameter_sharing_partner with
          | none =>
            Except.ok (⟨channels, stride, bits, in_channels, grad_cancel, bn0,
              body0.params, body2.params, none,
              body0, bnA, body2, none⟩, f3)
          | some p =>
            Except.ok (⟨channels, stride, bits, in_channels, grad_cancel, bn0,
              p.conv1_weights, p.conv2_weights, none,
              body0, bnA, body2, none⟩, f3)

/-- `BasicBlockV2Enas.latency_function` (lines 283-287). -/
def BasicBlockV2Enas.latency_function (self : BasicBlockV2Enas)
    (measured_forward_latency : ℚ) : ℚ :=
  if self.bits = 32 then 3 else 3 * (1/4 + 3/4 * ((self.bits : ℚ) / 32))

/-! ### BottleneckV2Enas (lines 298-378) -/

/-- State of a `BottleneckV2Enas` as its attributes would be populated; in
fact `BottleneckV2Enas.__init__` never completes (see `init` below), so
values of this type only arise as hypothetical partners. -/
structure BottleneckV2Enas where
  bits : ℕ
  conv1_weights : Option PDict
  conv2_weights : Option PDict
  conv3_weights : Option PDict
  downsample_conv_weights : Option PDict
deriving DecidableEq, Repr

/-- `BottleneckV2Enas.__init__` (lines 317-354).  After copying the
weight dictionaries of the partner (lines 323-333) it builds `self.bn1`
(line 337) and `self.conv1 = QConv2D(channels // 4, kernel_size=1,
strides=1, use_bias=False, params=conv1_weights)` (line 338, input
channels deferred) and `self.bn2` (line 339).  Line 340 then calls
`_conv3x3(channels // 4, stride, channels // 4, bits=self.bits, ...)`,
which binds `bits` positionally to `channels // 4` and again by keyword:
Python raises `TypeError` before the block is ever completed.  Lines
341-354 — including the `self.downsample_weights` read on line 345 —
are unreachable. -/
def BottleneckV2Enas.init (channels stride : ℕ) (downsample : Bool)
    (in_channels bits : ℕ) (grad_cancel : ℚ)
    (parameter_sharing_partner : Option BottleneckV2Enas) (fresh : ℕ) :
    Except PyErr (BottleneckV2Enas × ℕ) :=
  let conv1_weights : Option PDict :=
    match parameter_sharing_partner with
    | some p => p.conv1_weights
    | none => none
  -- lines 330-333 also copy conv2/conv3/downsample dictionaries; those
  -- reads always succeed and are never consulted before the failure.
  let (_bn1, f0) := mkBN fresh
  match mkQConv (channels / 4, 0, 1) conv1_weights f0 with
  | Except.error e => Except.error e
  | Except.ok (_conv1, f1) =>
    let (_bn2, _f2) := mkBN f1
    Except.error (.typeError "conv3x3 got multiple values for argument bits")

/-- `BottleneckV2Enas.latency_function` (lines 356-360). -/
def BottleneckV2Enas.latency_function (self : BottleneckV2Enas)
    (measured_forward_latency : ℚ) : ℚ :=
  if self.bits = 32 then 3 else 3 * (1/4 + 3/4 * ((self.bits : ℚ) / 32))

/-! ### Network assembly (lines 381-497) -/

/-- The four residual block classes (`resnet_block_versions`, lines 496-497). -/
inductive BlockVariant where
  | basic_block_v1
  | bottleneck_v1
  | basic_block_v2
  | bottleneck_v2
deriving DecidableEq, Repr

/-- A constructed residual block of any of the four classes. -/
inductive AnyBlock where
  | basicV1 (b : BasicBlockV1Enas)
  | bottleneckV1 (b : BottleneckV1Enas)
  | basicV2 (b : BasicBlockV2Enas)
  | bottleneckV2 (b : BottleneckV2Enas)
deriving DecidableEq, Repr

/-- Instantiate a block class the way `_make_layer` does: positional
`(channels, stride, downsample, in_channels=...)` with the Python
defaults `bits=1` and no `parameter_sharing_partner` (the `@enas_unit`
decorator of the external search library is treated as transparent). -/
def blockInit (v : BlockVariant) (channels stride : ℕ) (downsample : Bool)
    (in_channels : ℕ) (grad_cancel : ℚ) (fresh : ℕ) :
    Except PyErr (AnyBlock × ℕ) :=
  match v with
  | .basic_block_v1 =>
    (BasicBlockV1Enas.init channels stride downsample in_channels 1 grad_cancel none fresh).map
      (fun p => (.basicV1 p.1, p.2))
  | .bottleneck_v1 =>
    (BottleneckV1Enas.init channels stride downsample in_channels 1 grad_cancel none fresh).map
      (fun p => (.bottleneckV1 p.1, p.2))
  | .basic_block_v2 =>
    (BasicBlockV2Enas.init channels stride downsample in_channels 1 grad_cancel none fresh).map
      (fun p => (.basicV2 p.1, p.2))
  | .bottleneck_v2 =>
    (BottleneckV2Enas.init channels stride downsample in_channels 1 grad_cancel none fresh).map
      (fun p => (.bottleneckV2 p.1, p.2))

/-- The `for _ in range(num_layers - 1)` loop of `_make_layer` (line 393-394):
each later block of a stage is built with stride 1, no downsample, and
`in_channels = channels` (and the default `grad_cancel=1.0`). -/
def makeLayerRest (v : BlockVariant) (channels : ℕ) :
    ℕ → ℕ → Except PyErr (List AnyBlock × ℕ)
  | 0, fresh => Except.ok ([], fresh)
  | n + 1, fresh =>
    match blockInit v channels 1 false channels 1 fresh with
    | Except.error e => Except.error e
    | Except.ok (b, f1) =>
      match makeLayerRest v channels n f1 with
      | Except.error e => Except.error e
      | Except.ok (rest, f2) => Except.ok (b :: rest, f2)

/-- `ResNetEnas._make_layer` (lines 389-395): the first block of a stage
is built with the stage stride and `downsample = (channels != in_channels)`;
the remaining `num_layers - 1` blocks keep the stage shape. -/
def make_layer (v : BlockVariant) (num_layers channels stride in_channels : ℕ)
    (grad_cancel : ℚ) (fresh : ℕ) : Except PyErr (List AnyBlock × ℕ) :=
  match blockInit v channels stride (channels != in_channels) in_channels grad_cancel fresh with
  | Except.error e => Except.error e
  | Except.ok (b, f1) =>
    match makeLayerRest v channels (num_layers - 1) f1 with
    | Except.error e => Except.error e
    | Except.ok (rest, f2) => Except.ok (b :: rest, f2)

/-- One entry of the flat `features` list of an assembled network.  The
stem (`add_initial_layers`, repository code outside `src/`) is kept
opaque.  Gamma/beta identities of the network-level batchnorms are not
tracked: no claim concerns them. -/
inductive Layer where
  | batchNormNoScale
  | initialLayers (config : String) (out_channels : ℕ)
  | batchNorm
  | block (b : AnyBlock)
  | activationRelu
  | globalAvgPool
  | flatten
  | dense (classes in_units : ℕ)
deriving DecidableEq, Repr

/-- An assembled ENAS ResNet: the ordered `features` list plus the
`self.output = nn.Dense(classes, in_units=channels[-1])` head. -/
structure Network where
  features : List Layer
  classes : ℕ
  dense_in_units : ℕ
deriving DecidableEq, Repr

/-- The residual blocks of a network, in features order. -/
def Network.blocks (n : Network) : List AnyBlock :=
  n.features.filterMap (fun l => match l with | .block b => some b | _ => none)

/-- `ResNetEnas.enas_sequential` (lines 397-402): the features followed by
the dense classification head. -/
def enas_sequential (n : Network) : List Layer :=
  n.features ++ [Layer.dense n.classes n.dense_in_units]

/-- The stage loop of `ResNetV1Enas.__init__` (lines 435-438):
`stride = 1 if i == 0 else 2`, output channels `channels[i+1]`, input
channels `channels[i]`.  Under the length assertion of the constructor all indices
are in bounds, so out-of-range access (which Python would fault on)
cannot occur; `getD _ 0` is used for totality. -/
def v1Stages (v : BlockVariant) (grad_cancel : ℚ) (channels : List ℕ) :
    ℕ → List ℕ → ℕ → Except PyErr (List AnyBlock × ℕ)
  | _, [], fresh => Except.ok ([], fresh)
  | i, num_layer :: rest, fresh =>
    match make_layer v num_layer (channels.getD (i + 1) 0)
        (if i = 0 then 1 else 2) (channels.getD i 0) grad_cancel fresh with
    | Except.error e => Except.error e
    | Except.ok (blks, f1) =>
      match v1Stages v grad_cancel channels (i + 1) rest f1 with
      | Except.error e => Except.error e
      | Except.ok (more, f2) => Except.ok (blks ++ more, f2)

/-- The stage loop of `ResNetV2Enas.__init__` (lines 474-479): identical
strides and output channels, but the input channel count is carried in a
running `in_channels` variable initialised to `channels[0]`. -/
def v2Stages (v : BlockVariant) (grad_cancel : ℚ) (channels : List ℕ) :
    ℕ → ℕ → List ℕ → ℕ → Except PyErr (List AnyBlock × ℕ)
  | _, _, [], fresh => Except.ok ([], fresh)
  | i, in_channels, num_layer :: rest, fresh =>
    match make_layer v num_layer (channels.getD (i + 1) 0)
        (if i = 0 then 1 else 2) in_channels grad_cancel fresh with
    | Except.error e => Except.error e
    | Except.ok (blks, f1) =>
      match v2Stages v grad_cancel channels (i + 1) (channels.getD (i + 1) 0) rest f1 with
      | Except.error e => Except.error e
      | Except.ok (more, f2) => Except.ok (blks ++ more, f2)

/-- `ResNetV1Enas.__init__` (lines 425-442), including the base
`ResNetEnas.__init__` (lines 382-386: the dense head reads `channels[-1]`
before the length assertion runs).  Features order: no-scale input
batchnorm, stem, an extra batchnorm immediately after the stem, the stage
blocks, then relu / global average pool / flatten. -/
def ResNetV1Enas.init (v : BlockVariant) (layers channels : List ℕ)
    (classes : ℕ) (initial_layers : String) (grad_cancel : ℚ) :
    Except PyErr Network :=
  match channels.getLast? with
  | none => Except.error (.indexError "list index out of range")
  | some dense_in =>
    if channels.length = layers.length + 1 then
      match v1Stages v grad_cancel channels 0 layers 0 with
      | Except.error e => Except.error e
      | Except.ok (blks, _) =>
        Except.ok
          { features := [Layer.batchNormNoScale,
              Layer.initialLayers initial_layers (channels.getD 0 0),
              Layer.batchNorm] ++ blks.map Layer.block ++
              [Layer.activationRelu, Layer.globalAvgPool, Layer.flatten]
            classes := classes
            dense_in_units := dense_in }
    else Except.error (.assertionError "len(layers) == len(channels) - 1")

/-- `ResNetV2Enas.__init__` (lines 464-485).  Features order: no-scale
input batchnorm, stem, the stage blocks, then the extra batchnorm just
before relu / global average pool / flatten. -/
def ResNetV2Enas.init (v : BlockVariant) (layers channels : List ℕ)
    (classes : ℕ) (initial_layers : String) (grad_cancel : ℚ) :
    Except PyErr Network :=
  match channels.getLast? with
  | none => Except.error (.indexError "list index out of range")
  | some dense_in =>
    if channels.length = layers.length + 1 then
      match v2Stages v grad_cancel channels 0 (channels.getD 0 0) layers 0 with
      | Except.error e => Except.error e
      | Except.ok (blks, _) =>
        Except.ok
          { features := [Layer.batchNormNoScale,
              Layer.initialLayers initial_layers (channels.getD 0 0)] ++
              blks.map Layer.block ++
              [Layer.batchNorm, Layer.activationRelu, Layer.globalAvgPool, Layer.flatten]
            classes := classes
            dense_in_units := dense_in }
    else Except.error (.assertionError "len(layers) == len(channels) - 1")

/-! ### Registry and entry point (lines 489-535) -/

/-- The block kind strings of `resnet_spec`. -/
inductive BlockKindT where
  | basic_block
  | bottle_neck
deriving DecidableEq, Repr

/-- `resnet_spec` (lines 489-493). -/
def resnet_spec (num_layers : ℕ) : Option (BlockKindT × List ℕ × List ℕ) :=
  if num_layers = 18 then some (.basic_block, [2, 2, 2, 2], [64, 64, 128, 256, 512])
  else if num_layers = 34 then some (.basic_block, [3, 4, 6, 3], [64, 64, 128, 256, 512])
  else if num_layers = 50 then some (.bottle_neck, [3, 4, 6, 3], [64, 256, 512, 1024, 2048])
  else if num_layers = 101 then some (.bottle_neck, [3, 4, 23, 3], [64, 256, 512, 1024, 2048])
  else if num_layers = 152 then some (.bottle_neck, [3, 8, 36, 3], [64, 256, 512, 1024, 2048])
  else none

/-- `resnet_block_versions[version-1][block_type]` (lines 496-497); only
called with `version` in {1, 2}. -/
def resnet_block_versions (version : ℕ) (kind : BlockKindT) : BlockVariant :=
  match version, kind with
  | 1, .basic_block => .basic_block_v1
  | 1, .bottle_neck => .bottleneck_v1
  | _, .basic_block => .basic_block_v2
  | _, .bottle_neck => .bottleneck_v2

/-- `get_resnet_enas` (lines 501-535): assert the depth is in
`resnet_spec`, assert `1 <= version <= 2`, build the network with the
defaults (`classes=1000`, `initial_layers="imagenet"`, `grad_cancel=1.0`),
and finally raise `ValueError` when `pretrained` was requested. -/
def get_resnet_enas (version num_layers : ℕ) (pretrained : Bool) :
    Except PyErr Network :=
  match resnet_spec num_layers with
  | none => Except.error (.assertionError "Invalid number of layers")
  | some (block_type, layers, channels) =>
    if 1 ≤ version ∧ version ≤ 2 then
      let blockv := resnet_block_versions version block_type
      match (if version = 1
          then ResNetV1Enas.init blockv layers channels 1000 "imagenet" 1
          else ResNetV2Enas.init blockv layers channels 1000 "imagenet" 1) with
      | Except.error e => Except.error e
      | Except.ok net =>
        if pretrained then Except.error (.valueError "No pretrained model exists, yet.")
        else Except.ok net
    else Except.error (.assertionError "Invalid resnet version")

/-! ### Derived definitions used by the verification -/

/-- Whether a construction attempt succeeded. -/
def exceptIsOk : Except PyErr α → Bool
  | Except.ok _ => true
  | Except.error _ => false

/-- The downsample bookkeeping a block receives from `_make_layer`: a
basic block records `downsample` set iff its output and input channel
counts differ; bottleneck blocks never survive construction. -/
def AnyBlock.hasDownsampleInv : AnyBlock → Prop
  | .basicV1 s => s.downsample.isSome = (s.channels != s.in_channels)
  | .basicV2 s => s.downsample.isSome = (s.channels != s.in_channels)
  | .bottleneckV1 _ => False
  | .bottleneckV2 _ => False

/-- The parameter allocations of the (never shared) batchnorm layers of a
`BasicBlockV1Enas`. -/
def BasicBlockV1Enas.bn_pids (s : BasicBlockV1Enas) : List ℕ :=
  [s.body1_bn.pid, s.body3_bn.pid] ++
    (match s.downsample with | some l => [l.2.pid] | none => [])

/-- Every parameter allocation a `BasicBlockV1Enas` refers to. -/
def BasicBlockV1Enas.all_pids (s : BasicBlockV1Enas) : List ℕ :=
  [s.body0_qconv.params.pid, s.body2_qconv.params.pid] ++
    (match s.downsample with | some l => [l.1.params.pid] | none => []) ++ s.bn_pids

/-- The parameter allocations of the batchnorm layers of a
`BasicBlockV2Enas` (the leading `self.bn` and the body batchnorm). -/
def BasicBlockV2Enas.bn_pids (s : BasicBlockV2Enas) : List ℕ :=
  [s.bn.pid, s.body1_bn.pid]

/-- Every parameter allocation a `BasicBlockV2Enas` refers to. -/
def BasicBlockV2Enas.all_pids (s : BasicBlockV2Enas) : List ℕ :=
  [s.body0_qconv.params.pid, s.body2_qconv.params.pid] ++
    (match s.downsample with | some l => [l.params.pid] | none => []) ++ s.bn_pids

def c6WitnessNet : Network :=
  (ResNetV1Enas.init .basic_block_v1 [1, 1] [64, 64, 64] 10 "imagenet" 1).toOption.getD ⟨[], 0, 0⟩

def c8WitnessNet1 : Network :=
  (ResNetV1Enas.init .basic_block_v1 [2, 2, 2, 2] [64, 64, 128, 256, 512] 10 "imagenet" 1).toOption.getD
    ⟨[], 0, 0⟩

def c8WitnessNet2 : Network :=
  (ResNetV2Enas.init .basic_block_v1 [2, 2, 2, 2] [64, 64, 128, 256, 512] 10 "imagenet" 1).toOption.getD
    ⟨[], 0, 0⟩

/-! ### Helper lemmas -/

theorem bottleneckV1_init_fails (c s : ℕ) (ds : Bool) (inC b : ℕ) (g : ℚ)
    (psp : Option BottleneckV1Enas) (f : ℕ) :
    exceptIsOk (BottleneckV1Enas.init c s ds inC b g psp f) = false := by
  unfold BottleneckV1Enas.init
  rcases psp with _ | p
  · rfl
  · rcases hq : mkQConv (c / 4, 0, 1) p.conv1_weights f with e | ⟨q, f1⟩ <;>
      simp [hq, exceptIsOk]

theorem bottleneckV2_init_fails (c s : ℕ) (ds : Bool) (inC b : ℕ) (g : ℚ)
    (psp : Option BottleneckV2Enas) (f : ℕ) :
    exceptIsOk (BottleneckV2Enas.init c s ds inC b g psp f) = false := by
  unfold BottleneckV2Enas.init
  rcases psp with _ | p
  · rfl
  · rcases hq : mkQConv (c / 4, 0, 1) p.conv1_weights (f + 1) with e | ⟨q, f1⟩ <;>
      simp [mkBN, hq, exceptIsOk]

theorem basicV1_init_none_false (c s inC b : ℕ) (g : ℚ) (f : ℕ) :
    BasicBlockV1Enas.init c s false inC b g none f =
      Except.ok (⟨c, s, inC, b, g, ⟨⟨f, (c, inC, 3)⟩⟩, ⟨f+1⟩, ⟨⟨f+2, (c, c, 3)⟩⟩, ⟨f+3⟩, none⟩, f+4) := rfl

theorem basicV1_init_none_true (c s inC b : ℕ) (g : ℚ) (f : ℕ) :
    BasicBlockV1Enas.init c s true inC b g none f =
      Except.ok (⟨c, s, inC, b, g, ⟨⟨f, (c, inC, 3)⟩⟩, ⟨f+1⟩, ⟨⟨f+2, (c, c, 3)⟩⟩, ⟨f+3⟩,
        some (⟨⟨f+4, (c, inC, 1)⟩⟩, ⟨f+5⟩)⟩, f+6) := rfl

theorem basicV2_init_none_false (c s inC b : ℕ) (g : ℚ) (f : ℕ) :
    BasicBlockV2Enas.init c s false inC b g none f =
      Except.ok (⟨c, s, b, inC, g, ⟨f⟩, ⟨f+1, (c, inC, 3)⟩, ⟨f+3, (c, c, 3)⟩, none,
        ⟨⟨f+1, (c, inC, 3)⟩⟩, ⟨f+2⟩, ⟨⟨f+3, (c, c, 3)⟩⟩, none⟩, f+4) := rfl

theorem basicV2_init_none_true (c s inC b : ℕ) (g : ℚ) (f : ℕ) :
    BasicBlockV2Enas.init c s true inC b g none f =
      Except.ok (⟨c, s, b, inC, g, ⟨f⟩, ⟨f+1, (c, inC, 3)⟩, ⟨f+3, (c, c, 3)⟩,
        some (some ⟨f+4, (c, inC, 1)⟩),
        ⟨⟨f+1, (c, inC, 3)⟩⟩, ⟨f+2⟩, ⟨⟨f+3, (c, c, 3)⟩⟩, some ⟨⟨f+4, (c, inC, 1)⟩⟩⟩, f+5) := rfl

theorem basicV1_init_partner_false (c s s' inC b b' : ℕ) (g g' : ℚ) (f f' : ℕ) :
    BasicBlockV1Enas.init c s' false inC b' g'
      (some ⟨c, s, inC, b, g, ⟨⟨f, (c, inC, 3)⟩⟩, ⟨f+1⟩, ⟨⟨f+2, (c, c, 3)⟩⟩, ⟨f+3⟩, none⟩) f' =
      Except.ok (⟨c, s', inC, b', g', ⟨⟨f, (c, inC, 3)⟩⟩, ⟨f'⟩, ⟨⟨f+2, (c, c, 3)⟩⟩, ⟨f'+1⟩, none⟩, f'+2) := by
  unfold BasicBlockV1Enas.init
  simp [mkQConv, mkBN, shape_compatible]

theorem basicV1_init_partner_true (c s s' inC b b' : ℕ) (g g' : ℚ) (f f' : ℕ) :
    BasicBlockV1Enas.init c s' true inC b' g'
      (some ⟨c, s, inC, b, g, ⟨⟨f, (c, inC, 3)⟩⟩, ⟨f+1⟩, ⟨⟨f+2, (c, c, 3)⟩⟩, ⟨f+3⟩,
        some (⟨⟨f+4, (c, inC, 1)⟩⟩, ⟨f+5⟩)⟩) f' =
      Except.ok (⟨c, s', inC, b', g', ⟨⟨f, (c, inC, 3)⟩⟩, ⟨f'⟩, ⟨⟨f+2, (c, c, 3)⟩⟩, ⟨f'+1⟩,
        some (⟨⟨f+4, (c, inC, 1)⟩⟩, ⟨f'+2⟩)⟩, f'+3) := by
  unfold BasicBlockV1Enas.init
  simp [mkQConv, mkBN, shape_compatible]

theorem basicV2_init_partner_false (c s s' inC b b' : ℕ) (g g' : ℚ) (f f' : ℕ) :
    BasicBlockV2Enas.init c s' false inC b' g'
      (some ⟨c, s, b, inC, g, ⟨f⟩, ⟨f+1, (c, inC, 3)⟩, ⟨f+3, (c, c, 3)⟩, none,
        ⟨⟨f+1, (c, inC, 3)⟩⟩, ⟨f+2⟩, ⟨⟨f+3, (c, c, 3)⟩⟩, none⟩) f' =
      Except.ok (⟨c, s', b', inC, g', ⟨f'⟩, ⟨f+1, (c, inC, 3)⟩, ⟨f+3, (c, c, 3)⟩, none,
        ⟨⟨f+1, (c, inC, 3)⟩⟩, ⟨f'+1⟩, ⟨⟨f+3, (c, c, 3)⟩⟩, none⟩, f'+2) := by
  unfold BasicBlockV2Enas.init
  simp [mkQConv, mkBN, shape_compatible]

theorem basicV2_init_partner_true (c s s' inC b b' : ℕ) (g g' : ℚ) (f f' : ℕ) :
    BasicBlockV2Enas.init c s' true inC b' g'
      (some ⟨c, s, b, inC, g, ⟨f⟩, ⟨f+1, (c, inC, 3)⟩, ⟨f+3, (c, c, 3)⟩,
        some (some ⟨f+4, (c, inC, 1)⟩),
        ⟨⟨f+1, (c, inC, 3)⟩⟩, ⟨f+2⟩, ⟨⟨f+3, (c, c, 3)⟩⟩, some ⟨⟨f+4, (c, inC, 1)⟩⟩⟩) f' =
      Except.ok (⟨c, s', b', inC, g', ⟨f'⟩, ⟨f+1, (c, inC, 3)⟩, ⟨f+3, (c, c, 3)⟩,
        some (some ⟨f+4, (c, inC, 1)⟩),
        ⟨⟨f+1, (c, inC, 3)⟩⟩, ⟨f'+1⟩, ⟨⟨f+3, (c, c, 3)⟩⟩, some ⟨⟨f+4, (c, inC, 1)⟩⟩⟩, f'+2) := by
  unfold BasicBlockV2Enas.init
  simp [mkQConv, mkBN, shape_compatible]

theorem basicV1_partner_needs_channels
    (c c' s s' : ℕ) (ds : Bool) (inC b b' : ℕ) (g g' : ℚ)
    (p : BasicBlockV1Enas) (f f1 : ℕ)
    (h1 : BasicBlockV1Enas.init c s ds inC b g none f = Except.ok (p, f1))
    (h2 : exceptIsOk (BasicBlockV1Enas.init c' s' ds inC b' g' (some p) f1) = true) :
    c' = c := by
  by_cases hcc : c' = c
  · exact hcc
  exfalso
  have hsc : shape_compatible (c', inC, 3) (c, inC, 3) = false := by
    simp [shape_compatible, hcc]
  cases ds
  · rw [basicV1_init_none_false] at h1
    simp only [Except.ok.injEq, Prod.mk.injEq] at h1
    obtain ⟨rfl, rfl⟩ := h1
    unfold BasicBlockV1Enas.init at h2
    simp [mkQConv, mkBN, hsc, exceptIsOk] at h2
  · rw [basicV1_init_none_true] at h1
    simp only [Except.ok.injEq, Prod.mk.injEq] at h1
    obtain ⟨rfl, rfl⟩ := h1
    unfold BasicBlockV1Enas.init at h2
    simp [mkQConv, mkBN, hsc, exceptIsOk] at h2

theorem basicV2_partner_needs_channels
    (c c' s s' : ℕ) (ds : Bool) (inC b b' : ℕ) (g g' : ℚ)
    (p : BasicBlockV2Enas) (f f1 : ℕ)
    (h1 : BasicBlockV2Enas.init c s ds inC b g none f = Except.ok (p, f1))
    (h2 : exceptIsOk (BasicBlockV2Enas.init c' s' ds inC b' g' (some p) f1) = true) :
    c' = c := by
  by_cases hcc : c' = c
  · exact hcc
  exfalso
  have hsc : shape_compatible (c', inC, 3) (c, inC, 3) = false := by
    simp [shape_compatible, hcc]
  cases ds
  · rw [basicV2_init_none_false] at h1
    simp only [Except.ok.injEq, Prod.mk.injEq] at h1
    obtain ⟨rfl, rfl⟩ := h1
    unfold BasicBlockV2Enas.init at h2
    simp [mkQConv, mkBN, hsc, exceptIsOk] at h2
  · rw [basicV2_init_none_true] at h1
    simp only [Except.ok.injEq, Prod.mk.injEq] at h1
    obtain ⟨rfl, rfl⟩ := h1
    unfold BasicBlockV2Enas.init at h2
    simp [mkQConv, mkBN, hsc, exceptIsOk] at h2

theorem blockInit_dsInv (v : BlockVariant) (c s : ℕ) (ds : Bool) (inC : ℕ) (g : ℚ)
    (f : ℕ) (blk : AnyBlock) (f' : ℕ)
    (h : blockInit v c s ds inC g f = Except.ok (blk, f'))
    (hds : ds = (c != inC)) :
    blk.hasDownsampleInv := by
  cases v
  case basic_block_v1 =>
    cases ds
    · rw [show (blockInit BlockVariant.basic_block_v1 c s false inC g f) =
          (BasicBlockV1Enas.init c s false inC 1 g none f).map (fun p => (.basicV1 p.1, p.2)) from rfl,
        basicV1_init_none_false] at h
      simp only [Except.map, Except.ok.injEq, Prod.mk.injEq] at h
      obtain ⟨rfl, rfl⟩ := h
      simpa [AnyBlock.hasDownsampleInv] using hds.symm
    · rw [show (blockInit BlockVariant.basic_block_v1 c s true inC g f) =
          (BasicBlockV1Enas.init c s true inC 1 g none f).map (fun p => (.basicV1 p.1, p.2)) from rfl,
        basicV1_init_none_true] at h
      simp only [Except.map, Except.ok.injEq, Prod.mk.injEq] at h
      obtain ⟨rfl, rfl⟩ := h
      simpa [AnyBlock.hasDownsampleInv] using hds.symm
  case basic_block_v2 =>
    cases ds
    · rw [show (blockInit BlockVariant.basic_block_v2 c s false inC g f) =
          (BasicBlockV2Enas.init c s false inC 1 g none f).map (fun p => (.basicV2 p.1, p.2)) from rfl,
        basicV2_init_none_false] at h
      simp only [Except.map, Except.ok.injEq, Prod.mk.injEq] at h
      obtain ⟨rfl, rfl⟩ := h
      simpa [AnyBlock.hasDownsampleInv] using hds.symm
    · rw [show (blockInit BlockVariant.basic_block_v2 c s true inC g f) =
          (BasicBlockV2Enas.init c s true inC 1 g none f).map (fun p => (.basicV2 p.1, p.2)) from rfl,
        basicV2_init_none_true] at h
      simp only [Except.map, Except.ok.injEq, Prod.mk.injEq] at h
      obtain ⟨rfl, rfl⟩ := h
      simpa [AnyBlock.hasDownsampleInv] using hds.symm
  case bottleneck_v1 =>
    exfalso
    have hf := bottleneckV1_init_fails c s ds inC 1 g none f
    rcases hq : BottleneckV1Enas.init c s ds inC 1 g none f with e | pr
    · rw [show (blockInit BlockVariant.bottleneck_v1 c s ds inC g f) =
          (BottleneckV1Enas.init c s ds inC 1 g none f).map (fun p => (.bottleneckV1 p.1, p.2)) from rfl,
        hq] at h
      simp [Except.map] at h
    · rw [hq] at hf
      simp [exceptIsOk] at hf
  case bottleneck_v2 =>
    exfalso
    have hf := bottleneckV2_init_fails c s ds inC 1 g none f
    rcases hq : BottleneckV2Enas.init c s ds inC 1 g none f with e | pr
    · rw [show (blockInit BlockVariant.bottleneck_v2 c s ds inC g f) =
          (BottleneckV2Enas.init c s ds inC 1 g none f).map (fun p => (.bottleneckV2 p.1, p.2)) from rfl,
        hq] at h
      simp [Except.map] at h
    · rw [hq] at hf
      simp [exceptIsOk] at hf

theorem makeLayerRest_dsInv (v : BlockVariant) (c : ℕ) :
    ∀ (n f : ℕ) (res : List AnyBlock) (f2 : ℕ),
      makeLayerRest v c n f = Except.ok (res, f2) →
      ∀ blk ∈ res, blk.hasDownsampleInv := by
  intro n
  induction n with
  | zero =>
    intro f res f2 h blk hm
    unfold makeLayerRest at h
    simp only [Except.ok.injEq, Prod.mk.injEq] at h
    obtain ⟨rfl, rfl⟩ := h
    simp at hm
  | succ k ih =>
    intro f res f2 h blk hm
    unfold makeLayerRest at h
    rcases hb : blockInit v c 1 false c 1 f with e | ⟨b, f1⟩
    · rw [hb] at h; cases h
    · rw [hb] at h
      dsimp only [] at h
      rcases hr : makeLayerRest v c k f1 with e | ⟨rest, fr⟩
      · rw [hr] at h; cases h
      · rw [hr] at h
        simp only [Except.ok.injEq, Prod.mk.injEq] at h
        obtain ⟨rfl, rfl⟩ := h
        rcases List.mem_cons.mp hm with rfl | hm'
        · exact blockInit_dsInv v c 1 false c 1 f blk f1 hb (by simp)
        · exact ih f1 rest fr hr blk hm'

theorem make_layer_dsInv (v : BlockVariant) (n c s inC : ℕ) (g : ℚ) (f : ℕ)
    (res : List AnyBlock) (f2 : ℕ)
    (h : make_layer v n c s inC g f = Except.ok (res, f2)) :
    ∀ blk ∈ res, blk.hasDownsampleInv := by
  intro blk hm
  unfold make_layer at h
  rcases hb : blockInit v c s (c != inC) inC g f with e | ⟨b, f1⟩
  · rw [hb] at h; cases h
  · rw [hb] at h
    dsimp only [] at h
    rcases hr : makeLayerRest v c (n - 1) f1 with e | ⟨rest, fr⟩
    · rw [hr] at h; cases h
    · rw [hr] at h
      simp only [Except.ok.injEq, Prod.mk.injEq] at h
      obtain ⟨rfl, rfl⟩ := h
      rcases List.mem_cons.mp hm with rfl | hm'
      · exact blockInit_dsInv v c s (c != inC) inC g f blk f1 hb rfl
      · exact makeLayerRest_dsInv v c (n - 1) f1 rest fr hr blk hm'

theorem v1Stages_dsInv (v : BlockVariant) (g : ℚ) (channels : List ℕ) :
    ∀ (ls : List ℕ) (i f : ℕ) (res : List AnyBlock) (f2 : ℕ),
      v1Stages v g channels i ls f = Except.ok (res, f2) →
      ∀ blk ∈ res, blk.hasDownsampleInv := by
  intro ls
  induction ls with
  | nil =>
    intro i f res f2 h blk hm
    unfold v1Stages at h
    simp only [Except.ok.injEq, Prod.mk.injEq] at h
    obtain ⟨rfl, rfl⟩ := h
    simp at hm
  | cons nl rest ih =>
    intro i f res f2 h blk hm
    unfold v1Stages at h
    rcases hb : make_layer v nl (channels.getD (i + 1) 0)
        (if i = 0 then 1 else 2) (channels.getD i 0) g f with e | ⟨blks, f1⟩
    · rw [hb] at h; cases h
    · rw [hb] at h
      dsimp only [] at h
      rcases hr : v1Stages v g channels (i + 1) rest f1 with e | ⟨more, fr⟩
      · rw [hr] at h; cases h
      · rw [hr] at h
        simp only [Except.ok.injEq, Prod.mk.injEq] at h
        obtain ⟨rfl, rfl⟩ := h
        rcases List.mem_append.mp hm with hm' | hm'
        · exact make_layer_dsInv v nl _ _ _ g f blks f1 hb blk hm'
        · exact ih (i + 1) f1 more fr hr blk hm'

theorem v2Stages_dsInv (v : BlockVariant) (g : ℚ) (channels : List ℕ) :
    ∀ (ls : List ℕ) (i inC f : ℕ) (res : List AnyBlock) (f2 : ℕ),
      v2Stages v g channels i inC ls f = Except.ok (res, f2) →
      ∀ blk ∈ res, blk.hasDownsampleInv := by
  intro ls
  induction ls with
  | nil =>
    intro i inC f res f2 h blk hm
    unfold v2Stages at h
    simp only [Except.ok.injEq, Prod.mk.injEq] at h
    obtain ⟨rfl, rfl⟩ := h
    simp at hm
  | cons nl rest ih =>
    intro i inC f res f2 h blk hm
    unfold v2Stages at h
    rcases hb : make_layer v nl (channels.getD (i + 1) 0)
        (if i = 0 then 1 else 2) inC g f with e | ⟨blks, f1⟩
    · rw [hb] at h; cases h
    · rw [hb] at h
      dsimp only [] at h
      rcases hr : v2Stages v g channels (i + 1) (channels.getD (i + 1) 0) rest f1 with e | ⟨more, fr⟩
      · rw [hr] at h; cases h
      · rw [hr] at h
        simp only [Except.ok.injEq, Prod.mk.injEq] at h
        obtain ⟨rfl, rfl⟩ := h
        rcases List.mem_append.mp hm with hm' | hm'
        · exact make_layer_dsInv v nl _ _ _ g f blks f1 hb blk hm'
        · exact ih (i + 1) _ f1 more fr hr blk hm'

theorem filterMap_block (bs : List AnyBlock) :
    List.filterMap (fun l => match l with | Layer.block b => some b | _ => none)
      (bs.map Layer.block) = bs := by
  induction bs with
  | nil => rfl
  | cons b rest ih => simp [List.filterMap_cons, ih]

theorem network_blocks_v1form (il : String) (c0 cl d : ℕ) (bs : List AnyBlock) :
    (({ features := [Layer.batchNormNoScale, Layer.initialLayers il c0, Layer.batchNorm]
        ++ bs.map Layer.block ++ [Layer.activationRelu, Layer.globalAvgPool, Layer.flatten],
        classes := cl, dense_in_units := d } : Network)).blocks = bs := by
  simp only [Network.blocks, List.filterMap_append, filterMap_block]
  simp

theorem network_blocks_v2form (il : String) (c0 cl d : ℕ) (bs : List AnyBlock) :
    (({ features := [Layer.batchNormNoScale, Layer.initialLayers il c0]
        ++ bs.map Layer.block
        ++ [Layer.batchNorm, Layer.activationRelu, Layer.globalAvgPool, Layer.flatten],
        classes := cl, dense_in_units := d } : Network)).blocks = bs := by
  simp only [Network.blocks, List.filterMap_append, filterMap_block]
  simp

theorem v2Stages_eq_v1Stages (v : BlockVariant) (g : ℚ) (channels : List ℕ) :
    ∀ (ls : List ℕ) (i f : ℕ),
      v2Stages v g channels i (channels.getD i 0) ls f = v1Stages v g channels i ls f := by
  intro ls
  induction ls with
  | nil => intro i f; rfl
  | cons nl rest ih =>
    intro i f
    unfold v1Stages v2Stages
    rcases hb : make_layer v nl (channels.getD (i + 1) 0)
        (if i = 0 then 1 else 2) (channels.getD i 0) g f with e | ⟨blks, f1⟩ <;>
      dsimp only []
    rw [ih (i + 1) f1]

theorem basicV1_partner_same_ok (c s s' : ℕ) (ds : Bool) (inC b b' : ℕ) (g g' : ℚ)
    (p : BasicBlockV1Enas) (f f1 : ℕ)
    (h1 : BasicBlockV1Enas.init c s ds inC b g none f = Except.ok (p, f1)) :
    exceptIsOk (BasicBlockV1Enas.init c s' ds inC b' g' (some p) f1) = true := by
  cases ds
  · rw [basicV1_init_none_false] at h1
    simp only [Except.ok.injEq, Prod.mk.injEq] at h1
    obtain ⟨rfl, rfl⟩ := h1
    rw [basicV1_init_partner_false]
    rfl
  · rw [basicV1_init_none_true] at h1
    simp only [Except.ok.injEq, Prod.mk.injEq] at h1
    obtain ⟨rfl, rfl⟩ := h1
    rw [basicV1_init_partner_true]
    rfl

theorem basicV2_partner_same_ok (c s s' : ℕ) (ds : Bool) (inC b b' : ℕ) (g g' : ℚ)
    (p : BasicBlockV2Enas) (f f1 : ℕ)
    (h1 : BasicBlockV2Enas.init c s ds inC b g none f = Except.ok (p, f1)) :
    exceptIsOk (BasicBlockV2Enas.init c s' ds inC b' g' (some p) f1) = true := by
  cases ds
  · rw [basicV2_init_none_false] at h1
    simp only [Except.ok.injEq, Prod.mk.injEq] at h1
    obtain ⟨rfl, rfl⟩ := h1
    rw [basicV2_init_partner_false]
    rfl
  · rw [basicV2_init_none_true] at h1
    simp only [Except.ok.injEq, Prod.mk.injEq] at h1
    obtain ⟨rfl, rfl⟩ := h1
    rw [basicV2_init_partner_true]
    rfl

theorem basicV1_partner_sharing (c s s' : ℕ) (ds : Bool) (inC b b' : ℕ) (g g' : ℚ)
    (p q : BasicBlockV1Enas) (f f1 f2 : ℕ)
    (h1 : BasicBlockV1Enas.init c s ds inC b g none f = Except.ok (p, f1))
    (h2 : BasicBlockV1Enas.init c s' ds inC b' g' (some p) f1 = Except.ok (q, f2)) :
    q.body0_qconv.params = p.body0_qconv.params ∧
    q.body2_qconv.params = p.body2_qconv.params ∧
    q.downsample.map (fun l => l.1.params) = p.downsample.map (fun l => l.1.params) ∧
    ∀ i ∈ q.bn_pids, i ∉ p.all_pids := by
  cases ds
  · rw [basicV1_init_none_false] at h1
    simp only [Except.ok.injEq, Prod.mk.injEq] at h1
    obtain ⟨rfl, rfl⟩ := h1
    rw [basicV1_init_partner_false] at h2
    simp only [Except.ok.injEq, Prod.mk.injEq] at h2
    obtain ⟨rfl, rfl⟩ := h2
    refine ⟨rfl, rfl, rfl, ?_⟩
    intro i hi
    simp [BasicBlockV1Enas.bn_pids, BasicBlockV1Enas.all_pids] at hi ⊢
    omega
  · rw [basicV1_init_none_true] at h1
    simp only [Except.ok.injEq, Prod.mk.injEq] at h1
    obtain ⟨rfl, rfl⟩ := h1
    rw [basicV1_init_partner_true] at h2
    simp only [Except.ok.injEq, Prod.mk.injEq] at h2
    obtain ⟨rfl, rfl⟩ := h2
    refine ⟨rfl, rfl, rfl, ?_⟩
    intro i hi
    simp [BasicBlockV1Enas.bn_pids, BasicBlockV1Enas.all_pids] at hi ⊢
    omega

theorem basicV2_partner_sharing (c s s' : ℕ) (ds : Bool) (inC b b' : ℕ) (g g' : ℚ)
    (p q : BasicBlockV2Enas) (f f1 f2 : ℕ)
    (h1 : BasicBlockV2Enas.init c s ds inC b g none f = Except.ok (p, f1))
    (h2 : BasicBlockV2Enas.init c s' ds inC b' g' (some p) f1 = Except.ok (q, f2)) :
    q.body0_qconv.params = p.body0_qconv.params ∧
    q.body2_qconv.params = p.body2_qconv.params ∧
    q.downsample.map (fun l => l.params) = p.downsample.map (fun l => l.params) ∧
    ∀ i ∈ q.bn_pids, i ∉ p.all_pids := by
  cases ds
  · rw [basicV2_init_none_false] at h1
    simp only [Except.ok.injEq, Prod.mk.injEq] at h1
    obtain ⟨rfl, rfl⟩ := h1
    rw [basicV2_init_partner_false] at h2
    simp only [Except.ok.injEq, Prod.mk.injEq] at h2
    obtain ⟨rfl, rfl⟩ := h2
    refine ⟨rfl, rfl, rfl, ?_⟩
    intro i hi
    simp [BasicBlockV2Enas.bn_pids, BasicBlockV2Enas.all_pids] at hi ⊢
    omega
  · rw [basicV2_init_none_true] at h1
    simp only [Except.ok.injEq, Prod.mk.injEq] at h1
    obtain ⟨rfl, rfl⟩ := h1
    rw [basicV2_init_partner_true] at h2
    simp only [Except.ok.injEq, Prod.mk.injEq] at h2
    obtain ⟨rfl, rfl⟩ := h2
    refine ⟨rfl, rfl, rfl, ?_⟩
    intro i hi
    simp [BasicBlockV2Enas.bn_pids, BasicBlockV2Enas.all_pids] at hi ⊢
    omega

theorem resNetV1_blocks_dsInv (v : BlockVariant) (layers channels : List ℕ)
    (classes : ℕ) (il : String) (g : ℚ) (net : Network)
    (h : ResNetV1Enas.init v layers channels classes il g = Except.ok net) :
    ∀ blk ∈ net.blocks, blk.hasDownsampleInv := by
  unfold ResNetV1Enas.init at h
  rcases hL : channels.getLast? with _ | dIn
  · rw [hL] at h; cases h
  · rw [hL] at h
    dsimp only [] at h
    by_cases hlen : channels.length = layers.length + 1
    · rw [if_pos hlen] at h
      rcases hS : v1Stages v g channels 0 layers 0 with e | ⟨blks, fr⟩
      · rw [hS] at h; cases h
      · rw [hS] at h
        dsimp only [] at h
        cases h
        rw [network_blocks_v1form]
        exact v1Stages_dsInv v g channels layers 0 0 blks fr hS
    · rw [if_neg hlen] at h; cases h

theorem resNetV2_blocks_dsInv (v : BlockVariant) (layers channels : List ℕ)
    (classes : ℕ) (il : String) (g : ℚ) (net : Network)
    (h : ResNetV2Enas.init v layers channels classes il g = Except.ok net) :
    ∀ blk ∈ net.blocks, blk.hasDownsampleInv := by
  unfold ResNetV2Enas.init at h
  rcases hL : channels.getLast? with _ | dIn
  · rw [hL] at h; cases h
  · rw [hL] at h
    dsimp only [] at h
    by_cases hlen : channels.length = layers.length + 1
    · rw [if_pos hlen] at h
      rcases hS : v2Stages v g channels 0 (channels.getD 0 0) layers 0 with e | ⟨blks, fr⟩
      · rw [hS] at h; cases h
      · rw [hS] at h
        dsimp only [] at h
        cases h
        rw [network_blocks_v2form]
        exact v2Stages_dsInv v g channels layers 0 _ 0 blks fr hS
    · rw [if_neg hlen] at h; cases h

theorem resnet_v1_v2_features (v : BlockVariant) (layers channels : List ℕ)
    (classes : ℕ) (il : String) (g : ℚ) (n1 n2 : Network)
    (h1 : ResNetV1Enas.init v layers channels classes il g = Except.ok n1)
    (h2 : ResNetV2Enas.init v layers channels classes il g = Except.ok n2) :
    ∃ (bs : List AnyBlock) (dIn : ℕ), channels.getLast? = some dIn ∧
      n1.features = [Layer.batchNormNoScale, Layer.initialLayers il (channels.getD 0 0),
          Layer.batchNorm] ++ bs.map Layer.block ++
          [Layer.activationRelu, Layer.globalAvgPool, Layer.flatten] ∧
      n2.features = [Layer.batchNormNoScale, Layer.initialLayers il (channels.getD 0 0)] ++
          bs.map Layer.block ++
          [Layer.batchNorm, Layer.activationRelu, Layer.globalAvgPool, Layer.flatten] ∧
      enas_sequential n1 = n1.features ++ [Layer.dense classes dIn] ∧
      enas_sequential n2 = n2.features ++ [Layer.dense classes dIn] := by
  unfold ResNetV1Enas.init at h1
  unfold ResNetV2Enas.init at h2
  rcases hL : channels.getLast? with _ | dIn
  · rw [hL] at h1; cases h1
  · rw [hL] at h1 h2
    dsimp only [] at h1 h2
    by_cases hlen : channels.length = layers.length + 1
    · rw [if_pos hlen] at h1 h2
      rcases hS : v1Stages v g channels 0 layers 0 with e | ⟨blks, fr⟩
      · rw [hS] at h1; cases h1
      · rw [hS] at h1
        dsimp only [] at h1
        have hS2 : v2Stages v g channels 0 (channels.getD 0 0) layers 0 = Except.ok (blks, fr) := by
          rw [v2Stages_eq_v1Stages]; exact hS
        rw [hS2] at h2
        dsimp only [] at h2
        cases h1
        cases h2
        exact ⟨blks, dIn, rfl, rfl, rfl, rfl, rfl⟩
    · rw [if_neg hlen] at h1; cases h1

/-- Claim C1, corrected.  The claim said every variant fails with a
ShapeMismatch error when the partner differs in `channels` or `bit_width`.
What the code does: for the two basic variants a partner construction can
only succeed when the channel count equals that of the partner (the
framework parameter store rejects the conflicting weight shape, an
AssertionError, not a dedicated ShapeMismatch), and a partner differing
only in `bits` (or stride, or grad_cancel) is accepted and shared -
sharing across bit widths is exactly the intended ENAS design; the two
bottleneck variants never complete construction at all (broken `_conv3x3`
calls), with or without a partner, so no mismatch check is ever reached
there. -/
theorem claim_C1 :
    (∀ (c c' s s' : ℕ) (ds : Bool) (inC b b' : ℕ) (g g' : ℚ)
        (p : BasicBlockV1Enas) (f f1 : ℕ),
      BasicBlockV1Enas.init c s ds inC b g none f = Except.ok (p, f1) →
      exceptIsOk (BasicBlockV1Enas.init c' s' ds inC b' g' (some p) f1) = true →
      c' = c) ∧
    (∀ (c s s' : ℕ) (ds : Bool) (inC b b' : ℕ) (g g' : ℚ)
        (p : BasicBlockV1Enas) (f f1 : ℕ),
      BasicBlockV1Enas.init c s ds inC b g none f = Except.ok (p, f1) →
      exceptIsOk (BasicBlockV1Enas.init c s' ds inC b' g' (some p) f1) = true) ∧
    (∀ (c c' s s' : ℕ) (ds : Bool) (inC b b' : ℕ) (g g' : ℚ)
        (p : BasicBlockV2Enas) (f f1 : ℕ),
      BasicBlockV2Enas.init c s ds inC b g none f = Except.ok (p, f1) →
      exceptIsOk (BasicBlockV2Enas.init c' s' ds inC b' g' (some p) f1) = true →
      c' = c) ∧
    (∀ (c s s' : ℕ) (ds : Bool) (inC b b' : ℕ) (g g' : ℚ)
        (p : BasicBlockV2Enas) (f f1 : ℕ),
      BasicBlockV2Enas.init c s ds inC b g none f = Except.ok (p, f1) →
      exceptIsOk (BasicBlockV2Enas.init c s' ds inC b' g' (some p) f1) = true) ∧
    (∀ (c s : ℕ) (ds : Bool) (inC b : ℕ) (g : ℚ)
        (psp : Option BottleneckV1Enas) (f : ℕ),
      exceptIsOk (BottleneckV1Enas.init c s ds inC b g psp f) = false) ∧
    (∀ (c s : ℕ) (ds : Bool) (inC b : ℕ) (g : ℚ)
        (psp : Option BottleneckV2Enas) (f : ℕ),
      exceptIsOk (BottleneckV2Enas.init c s ds inC b g psp f) = false) := by
  refine ⟨?_, ?_, ?_, ?_, ?_, ?_⟩
  · intro c c' s s' ds inC b b' g g' p f f1 h1 h2
    exact basicV1_partner_needs_channels c c' s s' ds inC b b' g g' p f f1 h1 h2
  · intro c s s' ds inC b b' g g' p f f1 h1
    exact basicV1_partner_same_ok c s s' ds inC b b' g g' p f f1 h1
  · intro c c' s s' ds inC b b' g g' p f f1 h1 h2
    exact basicV2_partner_needs_channels c c' s s' ds inC b b' g g' p f f1 h1 h2
  · intro c s s' ds inC b b' g g' p f f1 h1
    exact basicV2_partner_same_ok c s s' ds inC b b' g g' p f f1 h1
  · exact bottleneckV1_init_fails
  · exact bottleneckV2_init_fails

/-- Claim C1 counterexample: a `BasicBlockV1Enas` built with a
`parameter_sharing_partner` whose `bit_width` differs (partner has
`bits = 1`, the new block `bits = 32`, all other spec fields equal)
constructs successfully instead of failing with a ShapeMismatch error.
The partner shown is itself the result of a real construction (first
conjunct). -/
theorem claim_C1_counterexample :
    BasicBlockV1Enas.init 64 1 false 64 1 1 none 0 =
      Except.ok (⟨64, 1, 64, 1, 1, ⟨⟨0, (64, 64, 3)⟩⟩, ⟨1⟩, ⟨⟨2, (64, 64, 3)⟩⟩, ⟨3⟩, none⟩, 4) ∧
    exceptIsOk (BasicBlockV1Enas.init 64 1 false 64 32 1
      (some ⟨64, 1, 64, 1, 1, ⟨⟨0, (64, 64, 3)⟩⟩, ⟨1⟩, ⟨⟨2, (64, 64, 3)⟩⟩, ⟨3⟩, none⟩) 4) = true :=
  ⟨rfl, rfl⟩

/-- Claim C1 witness: the success part of `claim_C1` applied at a
concrete input (a real partner with `bits = 1`, new block with
`bits = 32` and stride 2). -/
theorem claim_C1_witness :
    exceptIsOk (BasicBlockV1Enas.init 64 2 false 64 32 1
      (some ⟨64, 1, 64, 1, 1, ⟨⟨0, (64, 64, 3)⟩⟩, ⟨1⟩, ⟨⟨2, (64, 64, 3)⟩⟩, ⟨3⟩, none⟩) 4) = true :=
  claim_C1.2.1 64 1 2 false 64 1 32 1 1
    ⟨64, 1, 64, 1, 1, ⟨⟨0, (64, 64, 3)⟩⟩, ⟨1⟩, ⟨⟨2, (64, 64, 3)⟩⟩, ⟨3⟩, none⟩ 0 4 rfl

/-- Claim C2, corrected.  For the basic block variants the claim holds:
a block constructed with a partner aliases exactly the convolution
parameter dictionaries, matched positionally (first conv to first conv,
second conv to second conv, optional downsample conv to downsample conv),
and none of its batchnorm allocations coincides with any allocation of
the partner.  The bottleneck variants, however, never complete
construction with (or without) a partner, because their `_conv3x3` calls
raise TypeError, so no bottleneck block ever shares weights. -/
theorem claim_C2 :
    (∀ (c s s' : ℕ) (ds : Bool) (inC b b' : ℕ) (g g' : ℚ)
        (p q : BasicBlockV1Enas) (f f1 f2 : ℕ),
      BasicBlockV1Enas.init c s ds inC b g none f = Except.ok (p, f1) →
      BasicBlockV1Enas.init c s' ds inC b' g' (some p) f1 = Except.ok (q, f2) →
      q.body0_qconv.params = p.body0_qconv.params ∧
      q.body2_qconv.params = p.body2_qconv.params ∧
      q.downsample.map (fun l => l.1.params) = p.downsample.map (fun l => l.1.params) ∧
      ∀ i ∈ q.bn_pids, i ∉ p.all_pids) ∧
    (∀ (c s s' : ℕ) (ds : Bool) (inC b b' : ℕ) (g g' : ℚ)
        (p q : BasicBlockV2Enas) (f f1 f2 : ℕ),
      BasicBlockV2Enas.init c s ds inC b g none f = Except.ok (p, f1) →
      BasicBlockV2Enas.init c s' ds inC b' g' (some p) f1 = Except.ok (q, f2) →
      q.body0_qconv.params = p.body0_qconv.params ∧
      q.body2_qconv.params = p.body2_qconv.params ∧
      q.downsample.map (fun l => l.params) = p.downsample.map (fun l => l.params) ∧
      ∀ i ∈ q.bn_pids, i ∉ p.all_pids) ∧
    (∀ (c s : ℕ) (ds : Bool) (inC b : ℕ) (g : ℚ) (p : BottleneckV1Enas) (f : ℕ),
      exceptIsOk (BottleneckV1Enas.init c s ds inC b g (some p) f) = false) ∧
    (∀ (c s : ℕ) (ds : Bool) (inC b : ℕ) (g : ℚ) (p : BottleneckV2Enas) (f : ℕ),
      exceptIsOk (BottleneckV2Enas.init c s ds inC b g (some p) f) = false) := by
  refine ⟨?_, ?_, ?_, ?_⟩
  · intro c s s' ds inC b b' g g' p q f f1 f2 h1 h2
    exact basicV1_partner_sharing c s s' ds inC b b' g g' p q f f1 f2 h1 h2
  · intro c s s' ds inC b b' g g' p q f f1 f2 h1 h2
    exact basicV2_partner_sharing c s s' ds inC b b' g g' p q f f1 f2 h1 h2
  · intro c s ds inC b g p f
    exact bottleneckV1_init_fails c s ds inC b g (some p) f
  · intro c s ds inC b g p f
    exact bottleneckV2_init_fails c s ds inC b g (some p) f

/-- Claim C2 counterexample: constructing `BottleneckV1Enas` with a
concrete partner raises TypeError (the call on line 176 omits the
required `in_channels` argument of `_conv3x3`), so the positional
weight aliasing the claim asserts for this variant never happens - the
constructor never returns a block. -/
theorem claim_C2_counterexample :
    BottleneckV1Enas.init 256 1 false 64 1 1
      (some ⟨1, some ⟨0, (64, 0, 1)⟩, some ⟨1, (64, 64, 3)⟩, some ⟨2, (256, 0, 1)⟩, none⟩) 3 =
    Except.error (PyErr.typeError "conv3x3 missing 1 required positional argument: in_channels") :=
  rfl

/-- Claim C2 witness: the BasicBlockV1 part of `claim_C2` applied at a
concrete partner construction; the first convolution of the new block
aliases the first convolution dictionary of the partner. -/
theorem claim_C2_witness :
    (⟨64, 1, 64, 32, 1, ⟨⟨0, (64, 64, 3)⟩⟩, ⟨4⟩, ⟨⟨2, (64, 64, 3)⟩⟩, ⟨5⟩, none⟩
        : BasicBlockV1Enas).body0_qconv.params =
    (⟨64, 1, 64, 1, 1, ⟨⟨0, (64, 64, 3)⟩⟩, ⟨1⟩, ⟨⟨2, (64, 64, 3)⟩⟩, ⟨3⟩, none⟩
        : BasicBlockV1Enas).body0_qconv.params :=
  (claim_C2.1 64 1 1 false 64 1 32 1 1
    ⟨64, 1, 64, 1, 1, ⟨⟨0, (64, 64, 3)⟩⟩, ⟨1⟩, ⟨⟨2, (64, 64, 3)⟩⟩, ⟨3⟩, none⟩
    ⟨64, 1, 64, 32, 1, ⟨⟨0, (64, 64, 3)⟩⟩, ⟨4⟩, ⟨⟨2, (64, 64, 3)⟩⟩, ⟨5⟩, none⟩
    0 4 6 rfl rfl).1

/-- Claim C3, corrected.  `BottleneckV2Enas` construction always raises
at construction time, but with a TypeError from the line-340 `_conv3x3`
call (which passes `bits` both positionally and by keyword), for every
value of `downsample` - the line-345 read of the never-assigned
`self.downsample_weights` attribute sits in dead code and is never
reached.  Consequently `get_resnet_enas(2, d)` fails during construction
for every bottleneck depth d in {50, 101, 152}. -/
theorem claim_C3 :
    (∀ (c s : ℕ) (ds : Bool) (inC b : ℕ) (g : ℚ) (f : ℕ),
      BottleneckV2Enas.init c s ds inC b g none f =
        Except.error (PyErr.typeError "conv3x3 got multiple values for argument bits")) ∧
    get_resnet_enas 2 50 false =
      Except.error (PyErr.typeError "conv3x3 got multiple values for argument bits") ∧
    get_resnet_enas 2 101 false =
      Except.error (PyErr.typeError "conv3x3 got multiple values for argument bits") ∧
    get_resnet_enas 2 152 false =
      Except.error (PyErr.typeError "conv3x3 got multiple values for argument bits") :=
  ⟨fun _ _ _ _ _ _ _ => rfl, rfl, rfl, rfl⟩

/-- Claim C3 counterexample: constructing `BottleneckV2Enas` with
`downsample = True` raises TypeError from the `_conv3x3` call, not the
AttributeError on `downsample_weights` the claim attributes the failure
to. -/
theorem claim_C3_counterexample :
    BottleneckV2Enas.init 256 1 true 64 1 1 none 0 =
      Except.error (PyErr.typeError "conv3x3 got multiple values for argument bits") ∧
    PyErr.typeError "conv3x3 got multiple values for argument bits" ≠
      PyErr.attributeError "downsample_weights" :=
  ⟨rfl, by decide⟩

/-- Claim C7, code bug: assembling ResNet-50 V1 is supposed to produce
16 bottleneck blocks, but `get_resnet_enas(1, 50)` raises TypeError while
constructing the very first bottleneck block, because the line-176 call
`_conv3x3(channels // 4, 1, channels // 4, params=...)` omits the
required `in_channels` parameter of `_conv3x3`; no network is
assembled. -/
theorem claim_C7 :
    get_resnet_enas 1 50 false =
      Except.error (PyErr.typeError "conv3x3 missing 1 required positional argument: in_channels") :=
  rfl

/-- Claim C4, corrected.  For every block variant and every value of the
`measured_forward_latency` argument, `latency_function` returns exactly 3
when `bits = 32`; at `bits = 1` it returns
`3 * (0.25 + 0.75 * (1/32)) = 105/128 = 0.8203125`, not the 2.30625 the
claim states (the number in the spec does not match its own formula). -/
theorem claim_C4 :
    (∀ (s : BasicBlockV1Enas) (m : ℚ),
      (s.bits = 32 → s.latency_function m = 3) ∧
      (s.bits = 1 → s.latency_function m = 105 / 128)) ∧
    (∀ (s : BottleneckV1Enas) (m : ℚ),
      (s.bits = 32 → s.latency_function m = 3) ∧
      (s.bits = 1 → s.latency_function m = 105 / 128)) ∧
    (∀ (s : BasicBlockV2Enas) (m : ℚ),
      (s.bits = 32 → s.latency_function m = 3) ∧
      (s.bits = 1 → s.latency_function m = 105 / 128)) ∧
    (∀ (s : BottleneckV2Enas) (m : ℚ),
      (s.bits = 32 → s.latency_function m = 3) ∧
      (s.bits = 1 → s.latency_function m = 105 / 128)) := by
  refine ⟨fun s m => ⟨fun h => ?_, fun h => ?_⟩, fun s m => ⟨fun h => ?_, fun h => ?_⟩,
    fun s m => ⟨fun h => ?_, fun h => ?_⟩, fun s m => ⟨fun h => ?_, fun h => ?_⟩⟩
  · simp [BasicBlockV1Enas.latency_function, h]
  · norm_num [BasicBlockV1Enas.latency_function, h]
  · simp [BottleneckV1Enas.latency_function, h]
  · norm_num [BottleneckV1Enas.latency_function, h]
  · simp [BasicBlockV2Enas.latency_function, h]
  · norm_num [BasicBlockV2Enas.latency_function, h]
  · simp [BottleneckV2Enas.latency_function, h]
  · norm_num [BottleneckV2Enas.latency_function, h]

/-- Claim C4 counterexample: a concretely constructed `BasicBlockV1Enas`
with `bits = 1` has `latency_function` value `105/128`, and
`105/128` differs from the claimed `2.30625 = 369/160`. -/
theorem claim_C4_counterexample :
    (BasicBlockV1Enas.init 64 1 false 64 1 1 none 0).toOption.map
      (fun p => p.1.latency_function 7) = some (105 / 128) ∧
    (105 : ℚ) / 128 ≠ 369 / 160 := by
  constructor
  · rw [basicV1_init_none_false]
    simp only [Except.toOption, Option.map_some]
    norm_num [BasicBlockV1Enas.latency_function]
  · norm_num

/-- Claim C4 witness: `claim_C4` applied at concrete blocks with
`bits = 32` and `bits = 1`. -/
theorem claim_C4_witness :
    (⟨64, 1, 64, 32, 1, ⟨⟨0, (64, 64, 3)⟩⟩, ⟨1⟩, ⟨⟨2, (64, 64, 3)⟩⟩, ⟨3⟩, none⟩
        : BasicBlockV1Enas).latency_function 7 = 3 ∧
    (⟨64, 1, 64, 1, 1, ⟨⟨0, (64, 64, 3)⟩⟩, ⟨1⟩, ⟨⟨2, (64, 64, 3)⟩⟩, ⟨3⟩, none⟩
        : BasicBlockV1Enas).latency_function 7 = 105 / 128 ∧
    (⟨32, none, none, none, none⟩ : BottleneckV2Enas).latency_function 7 = 3 :=
  ⟨(claim_C4.1 _ 7).1 rfl, (claim_C4.1 _ 7).2 rfl, (claim_C4.2.2.2 _ 7).1 rfl⟩

/-- Claim C5, confirmed.  For every block variant, `latency_function` is
a pure function of `bits` alone: the `measured_forward_latency` argument
is ignored (two calls with different measured values agree), the result
is 3 when `bits = 32`, and `3 * (1/4 + 3/4 * bits/32)` for every other
bit width. -/
theorem claim_C5 :
    (∀ (s : BasicBlockV1Enas) (m m' : ℚ),
      s.latency_function m = s.latency_function m' ∧
      (s.bits = 32 → s.latency_function m = 3) ∧
      (s.bits ≠ 32 → s.latency_function m = 3 * (1/4 + 3/4 * ((s.bits : ℚ) / 32)))) ∧
    (∀ (s : BottleneckV1Enas) (m m' : ℚ),
      s.latency_function m = s.latency_function m' ∧
      (s.bits = 32 → s.latency_function m = 3) ∧
      (s.bits ≠ 32 → s.latency_function m = 3 * (1/4 + 3/4 * ((s.bits : ℚ) / 32)))) ∧
    (∀ (s : BasicBlockV2Enas) (m m' : ℚ),
      s.latency_function m = s.latency_function m' ∧
      (s.bits = 32 → s.latency_function m = 3) ∧
      (s.bits ≠ 32 → s.latency_function m = 3 * (1/4 + 3/4 * ((s.bits : ℚ) / 32)))) ∧
    (∀ (s : BottleneckV2Enas) (m m' : ℚ),
      s.latency_function m = s.latency_function m' ∧
      (s.bits = 32 → s.latency_function m = 3) ∧
      (s.bits ≠ 32 → s.latency_function m = 3 * (1/4 + 3/4 * ((s.bits : ℚ) / 32)))) := by
  refine ⟨fun s m m' => ⟨rfl, fun h => ?_, fun h => ?_⟩,
    fun s m m' => ⟨rfl, fun h => ?_, fun h => ?_⟩,
    fun s m m' => ⟨rfl, fun h => ?_, fun h => ?_⟩,
    fun s m m' => ⟨rfl, fun h => ?_, fun h => ?_⟩⟩
  · simp [BasicBlockV1Enas.latency_function, h]
  · simp [BasicBlockV1Enas.latency_function, h]
  · simp [BottleneckV1Enas.latency_function, h]
  · simp [BottleneckV1Enas.latency_function, h]
  · simp [BasicBlockV2Enas.latency_function, h]
  · simp [BasicBlockV2Enas.latency_function, h]
  · simp [BottleneckV2Enas.latency_function, h]
  · simp [BottleneckV2Enas.latency_function, h]

/-- Claim C5 witness: `claim_C5` applied at concrete blocks of several
variants, with `bits = 32` and `bits = 1`, and at two different measured
latency arguments. -/
theorem claim_C5_witness :
    (⟨64, 1, 64, 32, 1, ⟨⟨0, (64, 64, 3)⟩⟩, ⟨1⟩, ⟨⟨2, (64, 64, 3)⟩⟩, ⟨3⟩, none⟩
        : BasicBlockV1Enas).latency_function 5 =
      (⟨64, 1, 64, 32, 1, ⟨⟨0, (64, 64, 3)⟩⟩, ⟨1⟩, ⟨⟨2, (64, 64, 3)⟩⟩, ⟨3⟩, none⟩
        : BasicBlockV1Enas).latency_function 9 ∧
    (⟨64, 1, 64, 32, 1, ⟨⟨0, (64, 64, 3)⟩⟩, ⟨1⟩, ⟨⟨2, (64, 64, 3)⟩⟩, ⟨3⟩, none⟩
        : BasicBlockV1Enas).latency_function 5 = 3 ∧
    (⟨1, none, none, none, none⟩ : BottleneckV1Enas).latency_function 5 =
      3 * (1/4 + 3/4 * ((((⟨1, none, none, none, none⟩ : BottleneckV1Enas).bits : ℕ) : ℚ) / 32)) ∧
    (⟨64, 1, 1, 64, 1, ⟨0⟩, ⟨1, (64, 64, 3)⟩, ⟨3, (64, 64, 3)⟩, none,
        ⟨⟨1, (64, 64, 3)⟩⟩, ⟨2⟩, ⟨⟨3, (64, 64, 3)⟩⟩, none⟩
        : BasicBlockV2Enas).latency_function 5 =
      3 * (1/4 + 3/4 * ((((⟨64, 1, 1, 64, 1, ⟨0⟩, ⟨1, (64, 64, 3)⟩, ⟨3, (64, 64, 3)⟩, none,
        ⟨⟨1, (64, 64, 3)⟩⟩, ⟨2⟩, ⟨⟨3, (64, 64, 3)⟩⟩, none⟩
        : BasicBlockV2Enas).bits : ℕ) : ℚ) / 32)) ∧
    (⟨32, none, none, none, none⟩ : BottleneckV2Enas).latency_function 5 = 3 :=
  ⟨(claim_C5.1 _ 5 9).1, (claim_C5.1 _ 5 9).2.1 rfl,
   (claim_C5.2.1 _ 5 9).2.2 (by decide),
   (claim_C5.2.2.1 _ 5 9).2.2 (by decide),
   (claim_C5.2.2.2 _ 5 9).2.1 rfl⟩

/-- Claim C6, corrected.  In every successfully assembled network (V1 or
V2, any accepted layers/channels schedule) every block - in particular
the first block of each stage - records `has_downsample` true exactly
when its output channel count differs from its input channel count
(`_make_layer` line 391 passes `channels != in_channels`); the stride is
not consulted, contrary to the or-stride-greater-than-1 part of the
claim.  Only basic blocks can appear: the bottleneck constructors always
raise. -/
theorem claim_C6 :
    (∀ (v : BlockVariant) (layers channels : List ℕ) (classes : ℕ) (il : String)
        (g : ℚ) (net : Network),
      ResNetV1Enas.init v layers channels classes il g = Except.ok net →
      ∀ blk ∈ net.blocks, blk.hasDownsampleInv) ∧
    (∀ (v : BlockVariant) (layers channels : List ℕ) (classes : ℕ) (il : String)
        (g : ℚ) (net : Network),
      ResNetV2Enas.init v layers channels classes il g = Except.ok net →
      ∀ blk ∈ net.blocks, blk.hasDownsampleInv) :=
  ⟨resNetV1_blocks_dsInv, resNetV2_blocks_dsInv⟩

/-- Claim C6 counterexample: the accepted schedule layers = [1, 1],
channels = [64, 64, 64] assembles into a V1 network whose second stage
starts with a stride-2 block with `has_downsample = false`, although the
claim (channels equal, stride greater than 1) requires true there. -/
theorem claim_C6_counterexample :
    (ResNetV1Enas.init .basic_block_v1 [1, 1] [64, 64, 64] 10 "imagenet" 1).toOption.map
        (fun n => n.blocks.map (fun blk => match blk with
          | .basicV1 s => (s.stride, s.downsample.isSome)
          | _ => (0, true))) = some [(1, false), (2, false)] ∧
    ((decide ((64 : ℕ) ≠ 64) || decide ((2 : ℕ) > 1)) = true) := by
  constructor
  · rfl
  · decide

/-- Claim C6 witness: `claim_C6` applied to a concrete assembled network
and one of its blocks. -/
theorem claim_C6_witness :
    AnyBlock.hasDownsampleInv
      (.basicV1 ⟨64, 1, 64, 1, 1, ⟨⟨0, (64, 64, 3)⟩⟩, ⟨1⟩, ⟨⟨2, (64, 64, 3)⟩⟩, ⟨3⟩, none⟩) :=
  claim_C6.1 .basic_block_v1 [1, 1] [64, 64, 64] 10 "imagenet" 1 c6WitnessNet rfl _ (by decide)

/-- Claim C8, confirmed.  For any block class and any accepted schedule,
the V1 and V2 assemblers produce the same stage-block sequence, and their
feature lists are identical except that V1 inserts the extra batchnorm
immediately after the stem (before the stage blocks) while V2 inserts it
just before the final activation; both are the ordered sequence
[no-scale input batchnorm, stem, stage blocks, activation, global average
pool, flatten] with the extra batchnorm placed as described, followed by
the dense classification head over `channels[-1]` units. -/
theorem claim_C8 :
    ∀ (v : BlockVariant) (layers channels : List ℕ) (classes : ℕ) (il : String)
      (g : ℚ) (n1 n2 : Network),
      ResNetV1Enas.init v layers channels classes il g = Except.ok n1 →
      ResNetV2Enas.init v layers channels classes il g = Except.ok n2 →
      ∃ (bs : List AnyBlock) (dIn : ℕ), channels.getLast? = some dIn ∧
        n1.features = [Layer.batchNormNoScale, Layer.initialLayers il (channels.getD 0 0),
            Layer.batchNorm] ++ bs.map Layer.block ++
            [Layer.activationRelu, Layer.globalAvgPool, Layer.flatten] ∧
        n2.features = [Layer.batchNormNoScale, Layer.initialLayers il (channels.getD 0 0)] ++
            bs.map Layer.block ++
            [Layer.batchNorm, Layer.activationRelu, Layer.globalAvgPool, Layer.flatten] ∧
        enas_sequential n1 = n1.features ++ [Layer.dense classes dIn] ∧
        enas_sequential n2 = n2.features ++ [Layer.dense classes dIn] := by
  intro v layers channels classes il g n1 n2 h1 h2
  exact resnet_v1_v2_features v layers channels classes il g n1 n2 h1 h2

/-- Claim C8 witness: `claim_C8` applied to the concretely assembled
ResNet-18-shaped V1 and V2 networks. -/
theorem claim_C8_witness :
    ∃ (bs : List AnyBlock) (dIn : ℕ),
      ([64, 64, 128, 256, 512] : List ℕ).getLast? = some dIn ∧
      c8WitnessNet1.features = [Layer.batchNormNoScale,
          Layer.initialLayers "imagenet" (([64, 64, 128, 256, 512] : List ℕ).getD 0 0),
          Layer.batchNorm] ++ bs.map Layer.block ++
          [Layer.activationRelu, Layer.globalAvgPool, Layer.flatten] ∧
      c8WitnessNet2.features = [Layer.batchNormNoScale,
          Layer.initialLayers "imagenet" (([64, 64, 128, 256, 512] : List ℕ).getD 0 0)] ++
          bs.map Layer.block ++
          [Layer.batchNorm, Layer.activationRelu, Layer.globalAvgPool, Layer.flatten] ∧
      enas_sequential c8WitnessNet1 = c8WitnessNet1.features ++ [Layer.dense 10 dIn] ∧
      enas_sequential c8WitnessNet2 = c8WitnessNet2.features ++ [Layer.dense 10 dIn] :=
  claim_C8 .basic_block_v1 [2, 2, 2, 2] [64, 64, 128, 256, 512] 10 "imagenet" 1
    c8WitnessNet1 c8WitnessNet2 rfl rfl

/-- Claim C9, confirmed.  `get_resnet_enas(version, num_layers)` fails
with an assertion error (the InvalidConfiguration of the spec) whenever
`num_layers` is not one of {18, 34, 50, 101, 152} or `version` is not in
{1, 2}; the failure happens before any network construction. -/
theorem claim_C9 :
    ∀ (version num_layers : ℕ) (pretrained : Bool),
      num_layers ∉ ([18, 34, 50, 101, 152] : List ℕ) ∨ version ∉ ([1, 2] : List ℕ) →
      ∃ msg, get_resnet_enas version num_layers pretrained =
        Except.error (PyErr.assertionError msg) := by
  intro v n p h
  rcases hs : resnet_spec n with _ | ⟨bt, ls, cs⟩
  · refine ⟨"Invalid number of layers", ?_⟩
    unfold get_resnet_enas
    rw [hs]
  · have hn : n ∈ ([18, 34, 50, 101, 152] : List ℕ) := by
      by_contra hn
      simp only [List.mem_cons, List.mem_singleton, not_or] at hn
      obtain ⟨h18, h34, h50, h101, h152⟩ := hn
      unfold resnet_spec at hs
      simp [h18, h34, h50, h101, h152] at hs
    have hv : v ∉ ([1, 2] : List ℕ) := h.resolve_left (fun hA => hA hn)
    have hv2 : ¬(1 ≤ v ∧ v ≤ 2) := by
      simp only [List.mem_cons, List.mem_singleton, not_or] at hv
      omega
    refine ⟨"Invalid resnet version", ?_⟩
    unfold get_resnet_enas
    rw [hs]
    dsimp only []
    rw [if_neg hv2]

/-- Claim C9 witness: `claim_C9` applied at version 3, depth 18. -/
theorem claim_C9_witness :
    ∃ msg, get_resnet_enas 3 18 false = Except.error (PyErr.assertionError msg) :=
  claim_C9 3 18 false (Or.inr (by decide))

/-- Claim C10, corrected.  With `pretrained = True`, `get_resnet_enas`
never silently ignores the flag - every supported pair fails - but only
the four pairs whose construction succeeds ((1,18), (1,34), (2,18),
(2,34)) raise the no-pretrained ValueError (the UnsupportedOperation of
the spec); the six bottleneck pairs fail earlier, during construction,
with a TypeError that has nothing to do with the flag. -/
theorem claim_C10 :
    get_resnet_enas 1 18 true = Except.error (PyErr.valueError "No pretrained model exists, yet.") ∧
    get_resnet_enas 1 34 true = Except.error (PyErr.valueError "No pretrained model exists, yet.") ∧
    get_resnet_enas 2 18 true = Except.error (PyErr.valueError "No pretrained model exists, yet.") ∧
    get_resnet_enas 2 34 true = Except.error (PyErr.valueError "No pretrained model exists, yet.") ∧
    get_resnet_enas 1 50 true =
      Except.error (PyErr.typeError "conv3x3 missing 1 required positional argument: in_channels") ∧
    get_resnet_enas 1 101 true =
      Except.error (PyErr.typeError "conv3x3 missing 1 required positional argument: in_channels") ∧
    get_resnet_enas 1 152 true =
      Except.error (PyErr.typeError "conv3x3 missing 1 required positional argument: in_channels") ∧
    get_resnet_enas 2 50 true =
      Except.error (PyErr.typeError "conv3x3 got multiple values for argument bits") ∧
    get_resnet_enas 2 101 true =
      Except.error (PyErr.typeError "conv3x3 got multiple values for argument bits") ∧
    get_resnet_enas 2 152 true =
      Except.error (PyErr.typeError "conv3x3 got multiple values for argument bits") :=
  ⟨rfl, rfl, rfl, rfl, rfl, rfl, rfl, rfl, rfl, rfl⟩

/-- Claim C10 counterexample: `get_resnet_enas(1, 50, pretrained=True)`
raises the construction TypeError, not the no-pretrained-weights error
the claim says every supported pair raises. -/
theorem claim_C10_counterexample :
    get_resnet_enas 1 50 true =
      Except.error (PyErr.typeError "conv3x3 missing 1 required positional argument: in_channels") ∧
    PyErr.typeError "conv3x3 missing 1 required positional argument: in_channels" ≠
      PyErr.valueError "No pretrained model exists, yet." :=
  ⟨rfl, by decide⟩
